import Mathlib

/-!
Shallow embedding of the Arbitrum Stylus ERC-20 token contract (src/src/lib.rs)
and verification of the frozen claims about its specification.

Modelling conventions:
* 256-bit unsigned machine words (`U256`) are `Nat` with explicit overflow
  guards: `checked_add` / `checked_sub` mirror the source's checked arithmetic,
  failing exactly when the mathematical result leaves `[0, 2^256)`.
* 20-byte account identifiers are `Nat`; `0` is `Address::ZERO`.
* Contract storage is the `State` structure, one field per storage slot of the
  `sol_storage!` block.  The `snapshots` mapping, `minted_amounts` and
  `minting_period_start` are omitted: the source never reads or writes them.
* Each contract method becomes a function `State → Res α`, threading the
  storage explicitly.  `Res.err` carries the storage as mutated so far by the
  method body, because the Rust code mutates `self` in place before some error
  returns.  The Stylus host reverts all storage writes of an external call that
  returns `Err` (per-call atomicity, spec section 5), so the externally
  observable semantics of an entry point is the `call_*` wrapper built with
  `revert_on_err`, which restores the pre-call storage on error.
* `msg::sender()` and `msg::epoch()` become explicit `sender` / timestamp
  parameters.  `evm::log` event emission has no storage effect and is dropped.
-/

namespace ArbitrumERC20

/-- The modulus of 256-bit machine words: values live in `[0, U256_MOD)`. -/
def U256_MOD : Nat := 2 ^ 256

/-- Checked 256-bit addition: `U256::checked_add`, `none` on overflow. -/
def checked_add (a b : Nat) : Option Nat :=
  if a + b < U256_MOD then some (a + b) else none

/-- Checked 256-bit subtraction: `U256::checked_sub`, `none` on underflow. -/
def checked_sub (a b : Nat) : Option Nat :=
  if b ≤ a then some (a - b) else none

/-- A 20-byte account identifier; `0` models `Address::ZERO`. -/
abbrev Address := Nat

/-- Source `bytes32_from_u32`: writes the low 32 bits of the role constant
into the low 4 bytes of a 32-byte word, whose numeric value is `role % 2^32`. -/
def bytes32_from_u32 (role : Nat) : Nat := role % 2 ^ 32

/-- Role identifier for minter role (source literal; the source declares it
`u32`, so every use goes through `bytes32_from_u32`, which truncates to the
low 32 bits — the model applies the same truncation wherever the constant is
used as a map key). -/
def MINTER_ROLE : Nat :=
  0x9f2df0fed2c77648de5860a4cc508cd0818c85b8b8a1ab4ceeef8d981c8956a6

/-- Role identifier for pauser role. -/
def PAUSER_ROLE : Nat :=
  0x65d7a28e3265b37a6474929f336521b332cbb1a44ac7f6c0e19d4e9cfe7b8a4d

/-- Role identifier for admin role (can manage other roles). -/
def ADMIN_ROLE : Nat :=
  0xa49807205ce4d355092ef5a8a14f63e0a5e76c1d2932e00e8c0a0f9d7c7e3d5c

/-- Default admin role constant. -/
def DEFAULT_ADMIN_ROLE : Nat := 0

/-- The error enumeration of the contract (`ERC20Error`), with the structured
payloads the claims mention.  Variants the model never produces are omitted. -/
inductive Error where
  | InsufficientBalance (balance required : Nat)
  | InsufficientAllowance (allowance required : Nat)
  | ZeroAddress
  | NotOwner (caller owner : Address)
  | AlreadyInitialized
  | ContractPaused
  | NotContractPaused
  | InvalidAmount
  | SupplyCapExceeded (current_supply cap : Nat)
  | CannotDecreaseSupplyCap
  | AccessDenied (account : Address) (role : Nat)
  | RoleAlreadyGranted (role : Nat) (account : Address)
  | RoleAlreadyRevoked (role : Nat) (account : Address)
  | AddressBlacklisted (account : Address)
  | AddressNotBlacklisted (account : Address)
  | SnapshotNotFound (snapshot_id : Nat)
  | SnapshotInProgress
  | NoPendingOwnershipTransfer
  | OwnershipTransferNotYetUnlockable (current_time unlock_time : Nat)
  | BatchTransferLengthMismatch
  | BatchApproveLengthMismatch
  deriving DecidableEq, Repr

/-- The contract storage (`sol_storage!` block), zero-initialized as EVM
storage is before `initialize` runs. -/
structure State where
  total_supply : Nat := 0
  balances : Address → Nat := fun _ => 0
  allowances : Address → Address → Nat := fun _ _ => 0
  initialized : Bool := false
  name : String := ""
  symbol : String := ""
  decimals : Nat := 0
  owner : Address := 0
  paused : Bool := false
  supply_cap : Nat := 0
  supply_cap_enabled : Bool := false
  roles : Nat → Address → Bool := fun _ _ => false
  role_admins : Nat → Nat := fun _ => 0
  blacklisted : Address → Bool := fun _ => false
  blacklist_enabled : Bool := false
  next_snapshot_id : Nat := 0
  current_snapshot_id : Nat := 0
  pending_owner : Address := 0
  ownership_unlock_time : Nat := 0
  ownership_transfer_delay : Nat := 0
  emergency_admin : Address := 0
  guardian : Address := 0
  guardian_enabled : Bool := false
  minting_period_limit : Nat := 0
  minting_period_duration : Nat := 0
  transfer_whitelist : Address → Bool := fun _ => false
  transfer_restrictions_enabled : Bool := false
  contract_version : Nat := 0
  initialized_at : Nat := 0

/-- Result of running a method body: the returned value or the raised error,
together with the storage as left by the body (mutations included, since the
Rust code mutates `self` in place before some error returns). -/
inductive Res (α : Type) where
  | ok (val : α) (s : State)
  | err (e : Error) (s : State)

/-- True when the result is a success. -/
def Res.isOk {α : Type} : Res α → Bool
  | .ok _ _ => true
  | .err _ _ => false

/-- True when the result is an error. -/
def Res.isErr {α : Type} : Res α → Bool
  | .ok _ _ => false
  | .err _ _ => true

/-- The storage carried by the result. -/
def Res.stateOf {α : Type} : Res α → State
  | .ok _ s => s
  | .err _ s => s

/-- The error carried by the result, if any. -/
def Res.errOf {α : Type} : Res α → Option Error
  | .ok _ _ => none
  | .err e _ => some e

/-- Stylus reverts every storage write of an external call that returns
`Err`; applied to a method body's result, this restores the pre-call
storage `s0` on error (spec section 5: per-call atomicity). -/
def revert_on_err {α : Type} (r : Res α) (s0 : State) : Res α :=
  match r with
  | .ok v s => .ok v s
  | .err e _ => .err e s0

/-- Pointwise update of a balance map entry (`self.balances.setter(a).set(v)`). -/
def State.setBalance (s : State) (a : Address) (v : Nat) : State :=
  { s with balances := fun x => if x = a then v else s.balances x }

/-- Pointwise update of an allowance entry
(`self.allowances.setter(o).setter(sp).set(v)`). -/
def State.setAllowance (s : State) (o sp : Address) (v : Nat) : State :=
  { s with allowances := fun x y => if x = o ∧ y = sp then v else s.allowances x y }

/-- Pointwise update of a role membership bit
(`self.roles.setter(r).setter(a).set(b)`). -/
def State.setRole (s : State) (r : Nat) (a : Address) (b : Bool) : State :=
  { s with roles := fun x y => if x = r ∧ y = a then b else s.roles x y }

/-- Pointwise update of a role-admin entry (`self.role_admins.setter(r).set(v)`). -/
def State.setRoleAdmin (s : State) (r v : Nat) : State :=
  { s with role_admins := fun x => if x = r then v else s.role_admins x }

/-- Source `only_owner`: `NotOwner` unless the caller is the stored owner. -/
def only_owner (caller : Address) (s : State) : Option Error :=
  if caller ≠ s.owner then some (.NotOwner caller s.owner) else none

/-- Source `internal_transfer`: balance-checked debit of `from_` and credit of
`to`.  Note the source reads `to_balance` before writing the debited `from`
balance and writes `to` last, so when `from_ = to` the final balance is the
credited one. -/
def internal_transfer (from_ to_ : Address) (amount : Nat) (s : State) : Res Unit :=
  let from_balance := s.balances from_
  if from_balance < amount then
    .err (.InsufficientBalance from_balance amount) s
  else
    match checked_sub from_balance amount with
    | none => .err (.InsufficientBalance from_balance amount) s
    | some new_from_balance =>
      let to_balance := s.balances to_
      match checked_add to_balance amount with
      | none => .err .InvalidAmount s
      | some new_to_balance =>
        .ok () ((s.setBalance from_ new_from_balance).setBalance to_ new_to_balance)

/-- Source `transfer` body (`sender` is `msg::sender()`). -/
def transfer (sender to_ : Address) (amount : Nat) (s : State) : Res Bool :=
  if s.paused then .err .ContractPaused s
  else if to_ = 0 then .err .ZeroAddress s
  else if amount = 0 then .ok true s
  else
    match internal_transfer sender to_ amount s with
    | .ok _ s1 => .ok true s1
    | .err e s1 => .err e s1

/-- Source `transfer_from` body: allowance check and decrement, then
`internal_transfer`. -/
def transfer_from (sender from_ to_ : Address) (amount : Nat) (s : State) : Res Bool :=
  if s.paused then .err .ContractPaused s
  else if to_ = 0 then .err .ZeroAddress s
  else if amount = 0 then .ok true s
  else
    let current_allowance := s.allowances from_ sender
    if current_allowance < amount then
      .err (.InsufficientAllowance current_allowance amount) s
    else
      match checked_sub current_allowance amount with
      | none => .err (.InsufficientAllowance current_allowance amount) s
      | some new_allowance =>
        let s1 := s.setAllowance from_ sender new_allowance
        match internal_transfer from_ to_ amount s1 with
        | .ok _ s2 => .ok true s2
        | .err e s2 => .err e s2

/-- Source legacy `mint` body (owner-only).  It performs no supply-cap
check: it only guards the two additions against 256-bit overflow. -/
def mint (sender to_ : Address) (amount : Nat) (s : State) : Res Bool :=
  match only_owner sender s with
  | some e => .err e s
  | none =>
    if s.paused then .err .ContractPaused s
    else if to_ = 0 then .err .ZeroAddress s
    else if amount = 0 then .ok true s
    else
      match checked_add (s.balances to_) amount with
      | none => .err .InvalidAmount s
      | some new_balance =>
        let s1 := s.setBalance to_ new_balance
        match checked_add s1.total_supply amount with
        | none => .err .InvalidAmount s1
        | some new_supply =>
          .ok true { s1 with total_supply := new_supply }

/-- Source `burn_from` body: allowance check and decrement, then
balance-checked burn of `from_` and supply decrease. -/
def burn_from (sender from_ : Address) (amount : Nat) (s : State) : Res Bool :=
  if s.paused then .err .ContractPaused s
  else if from_ = 0 then .err .ZeroAddress s
  else if amount = 0 then .ok true s
  else
    let current_allowance := s.allowances from_ sender
    if current_allowance < amount then
      .err (.InsufficientAllowance current_allowance amount) s
    else
      match checked_sub current_allowance amount with
      | none => .err (.InsufficientAllowance current_allowance amount) s
      | some new_allowance =>
        let s1 := s.setAllowance from_ sender new_allowance
        let current_balance := s1.balances from_
        if current_balance < amount then
          .err (.InsufficientBalance current_balance amount) s1
        else
          match checked_sub current_balance amount with
          | none => .err (.InsufficientBalance current_balance amount) s1
          | some new_balance =>
            match checked_sub s1.total_supply amount with
            | none => .err .InvalidAmount s1
            | some new_supply =>
              .ok true { s1.setBalance from_ new_balance with total_supply := new_supply }

/-- Loop body of source `batch_transfer`: apply `internal_transfer` to each
recipient/amount pair in order, threading the storage; the first failure
aborts the loop.  The case of leftover recipients with no amounts is
unreachable under the caller's length guard. -/
def batch_transfer_go (sender : Address) :
    List Address → List Nat → State → Res Bool
  | [], _, s => .ok true s
  | _ :: _, [], s => .ok true s
  | r :: rs, a :: amts, s =>
    match internal_transfer sender r a s with
    | .ok _ s1 => batch_transfer_go sender rs amts s1
    | .err e s1 => .err e s1

/-- Source `batch_transfer` body: length guard, pause guard, then the loop. -/
def batch_transfer (sender : Address) (recipients : List Address)
    (amounts : List Nat) (s : State) : Res Bool :=
  if recipients.length ≠ amounts.length then .err .BatchTransferLengthMismatch s
  else if s.paused then .err .ContractPaused s
  else batch_transfer_go sender recipients amounts s

/-- Source `internal_transfer_with_checks`: blacklist gate in front of
`internal_transfer`.  The transfer-restrictions branch of the source has an
empty body and the `LargeTransfer` log has no storage effect, so neither
appears here. -/
def internal_transfer_with_checks (from_ to_ : Address) (amount : Nat)
    (s : State) : Res Unit :=
  if s.blacklist_enabled then
    if s.blacklisted from_ then .err (.AddressBlacklisted from_) s
    else if s.blacklisted to_ then .err (.AddressBlacklisted to_) s
    else internal_transfer from_ to_ amount s
  else internal_transfer from_ to_ amount s

/-- Source `transfer_with_checks` body. -/
def transfer_with_checks (sender to_ : Address) (amount : Nat) (s : State) : Res Bool :=
  if s.paused then .err .ContractPaused s
  else if to_ = 0 then .err .ZeroAddress s
  else if amount = 0 then .ok true s
  else
    match internal_transfer_with_checks sender to_ amount s with
    | .ok _ s1 => .ok true s1
    | .err e s1 => .err e s1

/-- Source `transfer_from_with_checks` body: allowance check and decrement,
then `internal_transfer_with_checks`. -/
def transfer_from_with_checks (sender from_ to_ : Address) (amount : Nat)
    (s : State) : Res Bool :=
  if s.paused then .err .ContractPaused s
  else if to_ = 0 then .err .ZeroAddress s
  else if amount = 0 then .ok true s
  else
    let current_allowance := s.allowances from_ sender
    if current_allowance < amount then
      .err (.InsufficientAllowance current_allowance amount) s
    else
      match checked_sub current_allowance amount with
      | none => .err (.InsufficientAllowance current_allowance amount) s
      | some new_allowance =>
        let s1 := s.setAllowance from_ sender new_allowance
        match internal_transfer_with_checks from_ to_ amount s1 with
        | .ok _ s2 => .ok true s2
        | .err e s2 => .err e s2

/-- Shared tail of source `internal_mint`: overflow-checked balance credit
and supply increase (the code after the supply-cap gate). -/
def internal_mint_core (to_ : Address) (amount : Nat) (s : State) : Res Unit :=
  match checked_add (s.balances to_) amount with
  | none => .err .InvalidAmount s
  | some new_balance =>
    let s1 := s.setBalance to_ new_balance
    match checked_add s1.total_supply amount with
    | none => .err .InvalidAmount s1
    | some new_supply =>
      .ok () { s1 with total_supply := new_supply }

/-- Source `internal_mint`: supply-cap gate (when enabled) in front of the
mint; exceeding the cap raises `SupplyCapExceeded{current_supply, cap}`,
an overflowing supply sum raises `InvalidAmount`. -/
def internal_mint (to_ : Address) (amount : Nat) (s : State) : Res Unit :=
  if s.supply_cap_enabled then
    let current_supply := s.total_supply
    match checked_add current_supply amount with
    | none => .err .InvalidAmount s
    | some new_supply =>
      if new_supply > s.supply_cap then
        .err (.SupplyCapExceeded current_supply s.supply_cap) s
      else internal_mint_core to_ amount s
  else internal_mint_core to_ amount s

/-- Source `mint_with_checks` body: minter-role gate, then `internal_mint`. -/
def mint_with_checks (sender to_ : Address) (amount : Nat) (s : State) : Res Bool :=
  if !(s.roles (bytes32_from_u32 MINTER_ROLE) sender) then
    .err (.AccessDenied sender (bytes32_from_u32 MINTER_ROLE)) s
  else if s.paused then .err .ContractPaused s
  else if to_ = 0 then .err .ZeroAddress s
  else if amount = 0 then .ok true s
  else
    match internal_mint to_ amount s with
    | .ok _ s1 => .ok true s1
    | .err e s1 => .err e s1

/-- Source `grant_role` body: admin-role gate, zero-address guard, rejection
of an already-held role, then the membership write. -/
def grant_role (sender : Address) (role : Nat) (account : Address)
    (s : State) : Res Bool :=
  let admin_role := s.role_admins (bytes32_from_u32 role)
  if !(s.roles (bytes32_from_u32 admin_role) sender) then
    .err (.AccessDenied sender (bytes32_from_u32 admin_role)) s
  else if account = 0 then .err .ZeroAddress s
  else if s.roles (bytes32_from_u32 role) account then
    .err (.RoleAlreadyGranted (bytes32_from_u32 role) account) s
  else
    .ok true (s.setRole (bytes32_from_u32 role) account true)

/-- Source `revoke_role` body: mirror of `grant_role` with
`RoleAlreadyRevoked` for a role not held. -/
def revoke_role (sender : Address) (role : Nat) (account : Address)
    (s : State) : Res Bool :=
  let admin_role := s.role_admins (bytes32_from_u32 role)
  if !(s.roles (bytes32_from_u32 admin_role) sender) then
    .err (.AccessDenied sender (bytes32_from_u32 admin_role)) s
  else if account = 0 then .err .ZeroAddress s
  else if !(s.roles (bytes32_from_u32 role) account) then
    .err (.RoleAlreadyRevoked (bytes32_from_u32 role) account) s
  else
    .ok true (s.setRole (bytes32_from_u32 role) account false)

/-- Source `accept_ownership` body (`current_time` is `msg::epoch()`). -/
def accept_ownership (sender : Address) (current_time : Nat) (s : State) : Res Bool :=
  let pending := s.pending_owner
  if pending = 0 then .err .NoPendingOwnershipTransfer s
  else if sender ≠ pending then .err (.NotOwner sender pending) s
  else
    let unlock_time := s.ownership_unlock_time
    if current_time < unlock_time then
      .err (.OwnershipTransferNotYetUnlockable current_time unlock_time) s
    else
      .ok true { s with owner := pending, pending_owner := 0, ownership_unlock_time := 0 }

/-- Source `snapshot` body: owner-only; allocates `next_snapshot_id` as the
in-progress snapshot without incrementing the counter. -/
def snapshot (sender : Address) (s : State) : Res Nat :=
  match only_owner sender s with
  | some e => .err e s
  | none =>
    if s.current_snapshot_id ≠ 0 then .err .SnapshotInProgress s
    else
      let snapshot_id := s.next_snapshot_id
      .ok snapshot_id { s with current_snapshot_id := snapshot_id }

/-- Source `finalize_snapshot` body: owner-only; increments
`next_snapshot_id` and clears the in-progress marker. -/
def finalize_snapshot (sender : Address) (s : State) : Res Nat :=
  match only_owner sender s with
  | some e => .err e s
  | none =>
    let snapshot_id := s.current_snapshot_id
    if snapshot_id = 0 then .err (.SnapshotNotFound snapshot_id) s
    else
      match checked_add snapshot_id 1 with
      | none => .err .InvalidAmount s
      | some next_id =>
        .ok snapshot_id { s with next_snapshot_id := next_id, current_snapshot_id := 0 }

/-- Source `balance_of_at`: bound check against `next_snapshot_id`, then —
per the source's own comment "For simplicity, return current balance" — the
live balance, not a snapshot-time one. -/
def balance_of_at (account : Address) (snapshot_id : Nat) (s : State) : Res Nat :=
  if snapshot_id ≥ s.next_snapshot_id then
    .err (.SnapshotNotFound snapshot_id) s
  else
    .ok (s.balances account) s

/-- Source `total_supply_at`: bound check, then the live total supply. -/
def total_supply_at (snapshot_id : Nat) (s : State) : Res Nat :=
  if snapshot_id ≥ s.next_snapshot_id then
    .err (.SnapshotNotFound snapshot_id) s
  else
    .ok s.total_supply s

/-- Source `initialize` body (`epoch` is `msg::epoch()`).  The storage writes
follow the source order; the supply-cap branch below reads the
`supply_cap_enabled` field this very call just set to `false`, so it can
never raise. -/
def initialize_token (token_name token_symbol : String) (token_decimals : Nat)
    (initial_supply : Nat) (initial_owner : Address) (epoch : Nat)
    (s : State) : Res Unit :=
  if s.initialized then .err .AlreadyInitialized s
  else if initial_owner = 0 then .err .ZeroAddress s
  else if token_decimals = 0 then .err .InvalidAmount s
  else
    let s1 := { s with
      name := token_name, symbol := token_symbol, decimals := token_decimals,
      owner := initial_owner }
    let s2 := ((((s1.setRoleAdmin (bytes32_from_u32 DEFAULT_ADMIN_ROLE) ADMIN_ROLE
      ).setRoleAdmin (bytes32_from_u32 ADMIN_ROLE) ADMIN_ROLE
      ).setRoleAdmin (bytes32_from_u32 MINTER_ROLE) ADMIN_ROLE
      ).setRoleAdmin (bytes32_from_u32 PAUSER_ROLE) ADMIN_ROLE)
    let s3 := (((s2.setRole (bytes32_from_u32 ADMIN_ROLE) initial_owner true
      ).setRole (bytes32_from_u32 MINTER_ROLE) initial_owner true
      ).setRole (bytes32_from_u32 PAUSER_ROLE) initial_owner true)
    let s4 := { s3 with
      supply_cap := U256_MOD - 1, supply_cap_enabled := false,
      next_snapshot_id := 1, current_snapshot_id := 0,
      ownership_transfer_delay := 48 * 60 * 60,
      minting_period_limit := U256_MOD - 1, minting_period_duration := 0,
      blacklist_enabled := false, transfer_restrictions_enabled := false,
      guardian_enabled := false, contract_version := 1, initialized_at := epoch }
    if initial_supply > 0 then
      if s4.supply_cap_enabled ∧ initial_supply > s4.supply_cap then
        .err (.SupplyCapExceeded 0 s4.supply_cap) s4
      else
        .ok () { s4.setBalance initial_owner initial_supply with
          total_supply := initial_supply, initialized := true }
    else
      .ok () { s4 with initialized := true }

/-- Externally observable `transfer`: the body with Stylus revert-on-error. -/
def call_transfer (sender to_ : Address) (amount : Nat) (s : State) : Res Bool :=
  revert_on_err (transfer sender to_ amount s) s

/-- Externally observable `transfer_from`. -/
def call_transfer_from (sender from_ to_ : Address) (amount : Nat) (s : State) : Res Bool :=
  revert_on_err (transfer_from sender from_ to_ amount s) s

/-- Externally observable `burn_from`. -/
def call_burn_from (sender from_ : Address) (amount : Nat) (s : State) : Res Bool :=
  revert_on_err (burn_from sender from_ amount s) s

/-- Externally observable `batch_transfer`. -/
def call_batch_transfer (sender : Address) (recipients : List Address)
    (amounts : List Nat) (s : State) : Res Bool :=
  revert_on_err (batch_transfer sender recipients amounts s) s

/-- Externally observable `transfer_with_checks`. -/
def call_transfer_with_checks (sender to_ : Address) (amount : Nat) (s : State) : Res Bool :=
  revert_on_err (transfer_with_checks sender to_ amount s) s

/-- Externally observable `transfer_from_with_checks`. -/
def call_transfer_from_with_checks (sender from_ to_ : Address) (amount : Nat)
    (s : State) : Res Bool :=
  revert_on_err (transfer_from_with_checks sender from_ to_ amount s) s

/-- The ledger-consistency invariant of the spec (sections 3 and 8): the
balance map has finite support and the balances sum to `total_supply`. -/
def sum_inv (s : State) : Prop :=
  ∃ accts : Finset Address,
    (∀ a, a ∉ accts → s.balances a = 0) ∧
    (∑ a ∈ accts, s.balances a) = s.total_supply

/-- Concrete state: supply cap 100 enabled, supply already at the cap,
owner 1 who also holds the minter role. -/
def capState : State :=
  { total_supply := 100, supply_cap := 100, supply_cap_enabled := true,
    owner := 1, roles := (fun r a => r == bytes32_from_u32 MINTER_ROLE && a == 1) }

/-- Concrete state: supply cap 100 enabled with supply 60 (room of 40),
owner 1 who also holds the minter role. -/
def capRoomState : State :=
  { total_supply := 60, supply_cap := 100, supply_cap_enabled := true,
    owner := 1, roles := (fun r a => r == bytes32_from_u32 MINTER_ROLE && a == 1) }

/-- Concrete state: blacklist enabled, account 1 blacklisted and holding the
whole supply, spender 9 approved by accounts 1 and 2. -/
def blkState : State :=
  { total_supply := 100, balances := (fun a => if a = 1 then 100 else 0),
    blacklist_enabled := true, blacklisted := (fun a => a == 1),
    allowances := (fun o sp => if (o == 1 || o == 2) && sp == 9 then 70 else 0) }

/-- Concrete state: account 1 holds the whole supply of 100. -/
def selfState : State :=
  { total_supply := 100, balances := (fun a => if a = 1 then 100 else 0) }

/-- Observable state after account 1 self-transfers 50 in `selfState`. -/
def selfStateAfter : State := (call_transfer 1 1 50 selfState).stateOf

/-- Concrete state: account 1 holds the whole supply of 50. -/
def batchState : State :=
  { total_supply := 50, balances := (fun a => if a = 1 then 50 else 0) }

/-- Concrete state: account 1 has balance 10 but an allowance of 100 granted
to spender 2. -/
def allowState : State :=
  { total_supply := 100, balances := (fun a => if a = 1 then 10 else 0),
    allowances := (fun o sp => if o == 1 && sp == 2 then 100 else 0) }

/-- Concrete state: pending ownership transfer to account 2 unlocking at
time 173800 (the spec section 8 example). -/
def pendState : State :=
  { owner := 1, pending_owner := 2, ownership_unlock_time := 173800 }

/-- Concrete state: account 1 self-administers via `ADMIN_ROLE`, account 2
holds `MINTER_ROLE`; every role is administered by `ADMIN_ROLE`. -/
def roleState : State :=
  { owner := 1,
    roles := (fun r a => (r == bytes32_from_u32 ADMIN_ROLE && a == 1) ||
      (r == bytes32_from_u32 MINTER_ROLE && a == 2)),
    role_admins := (fun _ => ADMIN_ROLE) }

/-- Concrete state: snapshot 1 already finalized (`next_snapshot_id = 2`,
none in progress), account 1 holding the whole supply of 100. -/
def snapState : State :=
  { owner := 1, next_snapshot_id := 2, total_supply := 100,
    balances := (fun a => if a = 1 then 100 else 0) }

/-- Observable state after account 1 transfers 50 to account 2 in
`snapState` — after snapshot 1 was finalized. -/
def snapStateAfter : State := (call_transfer 1 2 50 snapState).stateOf

/-- The all-zero storage of a freshly deployed, uninitialized contract. -/
def emptyState : State := {}

/-- C7: `accept_ownership`, called by the pending owner, fails with
`OwnershipTransferNotYetUnlockable` (carrying the current and unlock times)
whenever the current time is strictly below the stored unlock time, leaving
the whole state — owner and pending state included — unchanged; at or after
the unlock time it succeeds and in one step sets the owner to the pending
owner and clears both the pending owner and the unlock time. -/
theorem accept_ownership_timelock :
    (∀ (s : State) (sender t : Nat),
      s.pending_owner ≠ 0 → sender = s.pending_owner →
      t < s.ownership_unlock_time →
      accept_ownership sender t s =
        .err (.OwnershipTransferNotYetUnlockable t s.ownership_unlock_time) s) ∧
    (∀ (s : State) (sender t : Nat),
      s.pending_owner ≠ 0 → sender = s.pending_owner →
      s.ownership_unlock_time ≤ t →
      accept_ownership sender t s =
        .ok true { s with owner := s.pending_owner, pending_owner := 0,
                          ownership_unlock_time := 0 }) := by
  constructor
  · intro s sender t h1 h2 h3
    simp [accept_ownership, h1, h2, h3]
  · intro s sender t h1 h2 h3
    simp [accept_ownership, h1, h2, Nat.not_lt.mpr h3]

/-- Witness for C7 at the spec's own example: unlock time 173800, accept at
173799 fails carrying both times; accept at 173800 succeeds and clears the
pending state. -/
theorem accept_ownership_timelock_witness :
    accept_ownership 2 173799 pendState =
      .err (.OwnershipTransferNotYetUnlockable 173799 173800) pendState ∧
    accept_ownership 2 173800 pendState =
      .ok true { pendState with
        owner := 2, pending_owner := 0, ownership_unlock_time := 0 } :=
  ⟨accept_ownership_timelock.1 pendState 2 173799 (by decide) rfl (by decide),
   accept_ownership_timelock.2 pendState 2 173800 (by decide) rfl (by decide)⟩

/-- Helper: an authorized `grant_role` on an already-held role raises
`RoleAlreadyGranted` and leaves the state unchanged. -/
theorem grant_role_already_held (s : State) (sender account : Address) (role : Nat)
    (hadmin : s.roles (bytes32_from_u32 (s.role_admins (bytes32_from_u32 role))) sender = true)
    (hacc : account ≠ 0)
    (hheld : s.roles (bytes32_from_u32 role) account = true) :
    grant_role sender role account s =
      .err (.RoleAlreadyGranted (bytes32_from_u32 role) account) s := by
  simp [grant_role, hadmin, hacc, hheld]

/-- Helper: an authorized `revoke_role` on a role not held raises
`RoleAlreadyRevoked` and leaves the state unchanged. -/
theorem revoke_role_not_held (s : State) (sender account : Address) (role : Nat)
    (hadmin : s.roles (bytes32_from_u32 (s.role_admins (bytes32_from_u32 role))) sender = true)
    (hacc : account ≠ 0)
    (hheld : s.roles (bytes32_from_u32 role) account = false) :
    revoke_role sender role account s =
      .err (.RoleAlreadyRevoked (bytes32_from_u32 role) account) s := by
  simp [revoke_role, hadmin, hacc, hheld]

/-- Helper: an authorized `grant_role` on a role not yet held succeeds and
sets the membership bit. -/
theorem grant_role_ok (s : State) (sender account : Address) (role : Nat)
    (hadmin : s.roles (bytes32_from_u32 (s.role_admins (bytes32_from_u32 role))) sender = true)
    (hacc : account ≠ 0)
    (hheld : s.roles (bytes32_from_u32 role) account = false) :
    grant_role sender role account s =
      .ok true (s.setRole (bytes32_from_u32 role) account true) := by
  simp [grant_role, hadmin, hacc, hheld]

/-- Helper: an authorized `revoke_role` on a held role succeeds and clears
the membership bit. -/
theorem revoke_role_ok (s : State) (sender account : Address) (role : Nat)
    (hadmin : s.roles (bytes32_from_u32 (s.role_admins (bytes32_from_u32 role))) sender = true)
    (hacc : account ≠ 0)
    (hheld : s.roles (bytes32_from_u32 role) account = true) :
    revoke_role sender role account s =
      .ok true (s.setRole (bytes32_from_u32 role) account false) := by
  simp [revoke_role, hadmin, hacc, hheld]

/-- Helper: `setRole` leaves `role_admins` untouched and acts pointwise on
the membership map. -/
theorem setRole_roles (s : State) (r : Nat) (a : Address) (b : Bool) (x : Nat) (y : Address) :
    (s.setRole r a b).roles x y = if x = r ∧ y = a then b else s.roles x y := rfl

/-- C8: for an authorized caller (one holding the role's admin role) and a
non-null target, `grant_role` fails with `RoleAlreadyGranted` when the
account already holds the role and `revoke_role` fails with
`RoleAlreadyRevoked` when it does not, in both cases leaving the role
membership map (the whole state) unchanged; consequently granting twice
fails the second time, and revoking twice fails the second time (for the
revoke-revoke sequence, provided the first revoke does not strip the
caller's own admin bit). -/
theorem role_grant_revoke_strictness :
    (∀ (s : State) (sender account : Address) (role : Nat),
      s.roles (bytes32_from_u32 (s.role_admins (bytes32_from_u32 role))) sender = true →
      account ≠ 0 →
      s.roles (bytes32_from_u32 role) account = true →
      grant_role sender role account s =
        .err (.RoleAlreadyGranted (bytes32_from_u32 role) account) s) ∧
    (∀ (s : State) (sender account : Address) (role : Nat),
      s.roles (bytes32_from_u32 (s.role_admins (bytes32_from_u32 role))) sender = true →
      account ≠ 0 →
      s.roles (bytes32_from_u32 role) account = false →
      revoke_role sender role account s =
        .err (.RoleAlreadyRevoked (bytes32_from_u32 role) account) s) ∧
    (∀ (s : State) (sender account : Address) (role : Nat),
      s.roles (bytes32_from_u32 (s.role_admins (bytes32_from_u32 role))) sender = true →
      account ≠ 0 →
      s.roles (bytes32_from_u32 role) account = false →
      grant_role sender role account s =
        .ok true (s.setRole (bytes32_from_u32 role) account true) ∧
      grant_role sender role account (s.setRole (bytes32_from_u32 role) account true) =
        .err (.RoleAlreadyGranted (bytes32_from_u32 role) account)
          (s.setRole (bytes32_from_u32 role) account true)) ∧
    (∀ (s : State) (sender account : Address) (role : Nat),
      s.roles (bytes32_from_u32 (s.role_admins (bytes32_from_u32 role))) sender = true →
      account ≠ 0 →
      s.roles (bytes32_from_u32 role) account = true →
      ¬(bytes32_from_u32 (s.role_admins (bytes32_from_u32 role)) = bytes32_from_u32 role
          ∧ sender = account) →
      revoke_role sender role account s =
        .ok true (s.setRole (bytes32_from_u32 role) account false) ∧
      revoke_role sender role account (s.setRole (bytes32_from_u32 role) account false) =
        .err (.RoleAlreadyRevoked (bytes32_from_u32 role) account)
          (s.setRole (bytes32_from_u32 role) account false)) := by
  refine ⟨grant_role_already_held, revoke_role_not_held, ?_, ?_⟩
  · intro s sender account role hadmin hacc hheld
    have hra : (s.setRole (bytes32_from_u32 role) account true).role_admins
        = s.role_admins := rfl
    refine ⟨grant_role_ok s sender account role hadmin hacc hheld, ?_⟩
    have hadmin2 : (s.setRole (bytes32_from_u32 role) account true).roles
        (bytes32_from_u32 (s.role_admins (bytes32_from_u32 role))) sender = true := by
      rw [setRole_roles]
      split
      · rfl
      · exact hadmin
    have hheld2 : (s.setRole (bytes32_from_u32 role) account true).roles
        (bytes32_from_u32 role) account = true := by
      rw [setRole_roles]
      simp
    have := grant_role_already_held (s.setRole (bytes32_from_u32 role) account true)
      sender account role (by rw [hra]; exact hadmin2) hacc hheld2
    exact this
  · intro s sender account role hadmin hacc hheld hne
    have hra : (s.setRole (bytes32_from_u32 role) account false).role_admins
        = s.role_admins := rfl
    refine ⟨revoke_role_ok s sender account role hadmin hacc hheld, ?_⟩
    have hadmin2 : (s.setRole (bytes32_from_u32 role) account false).roles
        (bytes32_from_u32 (s.role_admins (bytes32_from_u32 role))) sender = true := by
      rw [setRole_roles, if_neg hne]
      exact hadmin
    have hheld2 : (s.setRole (bytes32_from_u32 role) account false).roles
        (bytes32_from_u32 role) account = false := by
      rw [setRole_roles]
      simp
    have := revoke_role_not_held (s.setRole (bytes32_from_u32 role) account false)
      sender account role (by rw [hra]; exact hadmin2) hacc hheld2
    exact this

/-- Witness for C8 in `roleState`: granting `MINTER_ROLE` to 2 (who holds
it) fails; revoking from 3 (who lacks it) fails; granting to 3 succeeds and
a second grant fails; revoking from 2 succeeds and a second revoke fails. -/
theorem role_grant_revoke_strictness_witness :
    grant_role 1 MINTER_ROLE 2 roleState =
      .err (.RoleAlreadyGranted (bytes32_from_u32 MINTER_ROLE) 2) roleState ∧
    revoke_role 1 MINTER_ROLE 3 roleState =
      .err (.RoleAlreadyRevoked (bytes32_from_u32 MINTER_ROLE) 3) roleState ∧
    (grant_role 1 MINTER_ROLE 3 roleState =
      .ok true (roleState.setRole (bytes32_from_u32 MINTER_ROLE) 3 true) ∧
     grant_role 1 MINTER_ROLE 3
        (roleState.setRole (bytes32_from_u32 MINTER_ROLE) 3 true) =
      .err (.RoleAlreadyGranted (bytes32_from_u32 MINTER_ROLE) 3)
        (roleState.setRole (bytes32_from_u32 MINTER_ROLE) 3 true)) ∧
    (revoke_role 1 MINTER_ROLE 2 roleState =
      .ok true (roleState.setRole (bytes32_from_u32 MINTER_ROLE) 2 false) ∧
     revoke_role 1 MINTER_ROLE 2
        (roleState.setRole (bytes32_from_u32 MINTER_ROLE) 2 false) =
      .err (.RoleAlreadyRevoked (bytes32_from_u32 MINTER_ROLE) 2)
        (roleState.setRole (bytes32_from_u32 MINTER_ROLE) 2 false)) :=
  ⟨role_grant_revoke_strictness.1 roleState 1 2 MINTER_ROLE (by decide) (by decide)
      (by decide),
   role_grant_revoke_strictness.2.1 roleState 1 3 MINTER_ROLE (by decide) (by decide)
      (by decide),
   role_grant_revoke_strictness.2.2.1 roleState 1 3 MINTER_ROLE (by decide) (by decide)
      (by decide),
   role_grant_revoke_strictness.2.2.2 roleState 1 2 MINTER_ROLE (by decide) (by decide)
      (by decide) (by decide)⟩

/-- C9: on an uninitialized contract, `initialize` rejects a null owner with
`ZeroAddress` and zero decimals with `InvalidAmount`, in both cases leaving
the state (in particular the `initialized` flag) unchanged, so a later call
with valid arguments still succeeds and marks the contract initialized. -/
theorem initialize_validation :
    (∀ (s : State) (n y : String) (sup own e : Nat),
      s.initialized = false → own ≠ 0 →
      initialize_token n y 0 sup own e s = .err .InvalidAmount s) ∧
    (∀ (s : State) (n y : String) (d sup e : Nat),
      s.initialized = false →
      initialize_token n y d sup 0 e s = .err .ZeroAddress s) ∧
    (∀ (s : State) (n y : String) (d sup own e : Nat),
      s.initialized = false → own ≠ 0 → d ≠ 0 →
      (initialize_token n y d sup own e s).isOk = true ∧
      ((initialize_token n y d sup own e s).stateOf).initialized = true ∧
      ((initialize_token n y d sup own e s).stateOf).owner = own ∧
      (sup ≠ 0 →
        ((initialize_token n y d sup own e s).stateOf).total_supply = sup ∧
        ((initialize_token n y d sup own e s).stateOf).balances own = sup)) := by
  refine ⟨?_, ?_, ?_⟩
  · intro s n y sup own e hinit hown
    simp [initialize_token, hinit, hown]
  · intro s n y d sup e hinit
    simp [initialize_token, hinit]
  · intro s n y d sup own e hinit hown hdec
    by_cases hs : sup > 0
    · simp [initialize_token, hinit, hown, hdec, hs, Res.isOk, Res.stateOf,
        State.setBalance, State.setRole, State.setRoleAdmin]
    · have hs0 : sup = 0 := by omega
      simp [initialize_token, hinit, hown, hdec, hs, hs0, Res.isOk, Res.stateOf,
        State.setBalance, State.setRole, State.setRoleAdmin]

/-- Witness for C9 on the all-zero fresh storage: decimals 0 and owner 0 are
each rejected leaving the storage unchanged, and a subsequent valid call
succeeds, setting supply, balance and owner. -/
theorem initialize_validation_witness :
    initialize_token "Tok" "TOK" 0 1000 1 5 emptyState = .err .InvalidAmount emptyState ∧
    initialize_token "Tok" "TOK" 18 1000 0 5 emptyState = .err .ZeroAddress emptyState ∧
    ((initialize_token "Tok" "TOK" 18 1000 1 5 emptyState).isOk = true ∧
     ((initialize_token "Tok" "TOK" 18 1000 1 5 emptyState).stateOf).initialized = true ∧
     ((initialize_token "Tok" "TOK" 18 1000 1 5 emptyState).stateOf).owner = 1 ∧
     ((1000 : Nat) ≠ 0 →
       ((initialize_token "Tok" "TOK" 18 1000 1 5 emptyState).stateOf).total_supply = 1000 ∧
       ((initialize_token "Tok" "TOK" 18 1000 1 5 emptyState).stateOf).balances 1 = 1000)) :=
  ⟨initialize_validation.1 emptyState "Tok" "TOK" 1000 1 5 rfl (by decide),
   initialize_validation.2.1 emptyState "Tok" "TOK" 18 1000 5 rfl,
   initialize_validation.2.2 emptyState "Tok" "TOK" 18 1000 1 5 rfl (by decide)
     (by decide)⟩

/-- Helper: inversion of a successful `snapshot` call — the caller is the
owner, no snapshot was in progress, the returned id is `next_snapshot_id`,
and the only change is marking that id as in progress. -/
theorem snapshot_ok_inv (s : State) (sender : Address) (id : Nat) (s' : State)
    (h : snapshot sender s = .ok id s') :
    sender = s.owner ∧ s.current_snapshot_id = 0 ∧ id = s.next_snapshot_id ∧
    s' = { s with current_snapshot_id := s.next_snapshot_id } := by
  unfold snapshot only_owner at h
  by_cases h1 : sender = s.owner
  · simp [h1] at h
    by_cases h2 : s.current_snapshot_id = 0
    · simp [h2] at h
      exact ⟨h1, h2, h.1.symm, h.2.symm⟩
    · simp [h2] at h
  · simp [h1] at h

/-- C10: `balance_of_at` and `total_supply_at` fail with `SnapshotNotFound`
exactly when the queried id is at least `next_snapshot_id` and otherwise
return the (live) value; hence id 0, the no-snapshot-in-progress sentinel,
always succeeds on a state with a positive `next_snapshot_id` and returns
the live value, while an id just allocated by `snapshot` (which equals
`next_snapshot_id`) cannot be queried until `finalize_snapshot` increments
the counter past it. -/
theorem snapshot_query_bounds :
    (∀ (s : State) (a : Address) (id : Nat), s.next_snapshot_id ≤ id →
      balance_of_at a id s = .err (.SnapshotNotFound id) s) ∧
    (∀ (s : State) (a : Address) (id : Nat), id < s.next_snapshot_id →
      balance_of_at a id s = .ok (s.balances a) s) ∧
    (∀ (s : State) (id : Nat), s.next_snapshot_id ≤ id →
      total_supply_at id s = .err (.SnapshotNotFound id) s) ∧
    (∀ (s : State) (id : Nat), id < s.next_snapshot_id →
      total_supply_at id s = .ok s.total_supply s) ∧
    (∀ (s : State) (a : Address), 0 < s.next_snapshot_id →
      balance_of_at a 0 s = .ok (s.balances a) s ∧
      total_supply_at 0 s = .ok s.total_supply s) ∧
    (∀ (s : State) (sender : Address) (id : Nat) (s' : State) (a : Address),
      snapshot sender s = .ok id s' →
      balance_of_at a id s' = .err (.SnapshotNotFound id) s' ∧
      total_supply_at id s' = .err (.SnapshotNotFound id) s') ∧
    (∀ (s : State) (sender : Address) (id : Nat) (s' : State) (a : Address),
      snapshot sender s = .ok id s' → 0 < id → id + 1 < U256_MOD →
      ∃ s'' : State, finalize_snapshot sender s' = .ok id s'' ∧
        balance_of_at a id s'' = .ok (s''.balances a) s'' ∧
        total_supply_at id s'' = .ok s''.total_supply s'') := by
  refine ⟨?_, ?_, ?_, ?_, ?_, ?_, ?_⟩
  · intro s a id h
    simp [balance_of_at, h]
  · intro s a id h
    simp [balance_of_at, Nat.not_le.mpr h]
  · intro s id h
    simp [total_supply_at, h]
  · intro s id h
    simp [total_supply_at, Nat.not_le.mpr h]
  · intro s a h
    constructor
    · simp [balance_of_at, Nat.not_le.mpr h]
    · simp [total_supply_at, Nat.not_le.mpr h]
  · intro s sender id s' a h
    obtain ⟨howner, hcur, hid, hs'⟩ := snapshot_ok_inv s sender id s' h
    subst hs'
    constructor
    · simp [balance_of_at, hid]
    · simp [total_supply_at, hid]
  · intro s sender id s' a h hpos hov
    obtain ⟨howner, hcur, hid, hs'⟩ := snapshot_ok_inv s sender id s' h
    subst hs'
    refine ⟨{ s with current_snapshot_id := 0, next_snapshot_id := id + 1 }, ?_, ?_, ?_⟩
    · unfold finalize_snapshot only_owner
      have hne : id ≠ 0 := Nat.pos_iff_ne_zero.mp hpos
      simp [howner.symm, hid.symm, hne, checked_add, hov]
    · simp [balance_of_at, Nat.lt_succ_self]
    · simp [total_supply_at, Nat.lt_succ_self]

/-- Witness for C10 in `snapState` (snapshot 1 finalized, next id 2): ids 0
and 1 succeed returning live values, id 2 fails; starting snapshot 2 leaves
id 2 unqueryable until `finalize_snapshot`, after which it succeeds. -/
theorem snapshot_query_bounds_witness :
    balance_of_at 7 2 snapState = .err (.SnapshotNotFound 2) snapState ∧
    balance_of_at 1 1 snapState = .ok (snapState.balances 1) snapState ∧
    total_supply_at 2 snapState = .err (.SnapshotNotFound 2) snapState ∧
    total_supply_at 1 snapState = .ok snapState.total_supply snapState ∧
    (balance_of_at 7 0 snapState = .ok (snapState.balances 7) snapState ∧
     total_supply_at 0 snapState = .ok snapState.total_supply snapState) ∧
    (balance_of_at 7 2 { snapState with current_snapshot_id := 2 } =
       .err (.SnapshotNotFound 2) { snapState with current_snapshot_id := 2 } ∧
     total_supply_at 2 { snapState with current_snapshot_id := 2 } =
       .err (.SnapshotNotFound 2) { snapState with current_snapshot_id := 2 }) ∧
    (∃ s'' : State, finalize_snapshot 1 { snapState with current_snapshot_id := 2 } =
        .ok 2 s'' ∧
      balance_of_at 7 2 s'' = .ok (s''.balances 7) s'' ∧
      total_supply_at 2 s'' = .ok s''.total_supply s'') :=
  ⟨snapshot_query_bounds.1 snapState 7 2 (by decide),
   snapshot_query_bounds.2.1 snapState 1 1 (by decide),
   snapshot_query_bounds.2.2.1 snapState 2 (by decide),
   snapshot_query_bounds.2.2.2.1 snapState 1 (by decide),
   snapshot_query_bounds.2.2.2.2.1 snapState 7 (by decide),
   snapshot_query_bounds.2.2.2.2.2.1 snapState 1 2
     { snapState with current_snapshot_id := 2 } 7 rfl,
   snapshot_query_bounds.2.2.2.2.2.2 snapState 1 2
     { snapState with current_snapshot_id := 2 } 7 rfl (by decide) (by decide)⟩

/-- C1 counterexample: the claim is false for the legacy owner-only `mint`.
In `capState` the cap is enabled and `total_supply + 50 = 150 > 100 = cap`,
yet `mint` succeeds and drives the supply past the cap: the legacy variant
performs no supply-cap check at all. -/
theorem legacy_mint_ignores_supply_cap_cex :
    capState.supply_cap_enabled = true ∧
    capState.total_supply + 50 > capState.supply_cap ∧
    (mint 1 2 50 capState).isOk = true ∧
    (mint 1 2 50 capState).stateOf.total_supply = 150 := by
  refine ⟨rfl, by decide, rfl, rfl⟩

/-- C1 amended: only `mint_with_checks` enforces the supply cap — with the
cap enabled and `total_supply + amount > cap` (the sum fitting in 256 bits)
it fails with `SupplyCapExceeded{current_supply, cap}` leaving the state
unchanged, and it succeeds when the sum equals the cap exactly; the legacy
owner-only `mint` performs no supply-cap check and succeeds past the cap. -/
theorem supply_cap_enforcement_amended :
    (∀ (s : State) (sender to_ : Address) (amount : Nat),
      s.roles (bytes32_from_u32 MINTER_ROLE) sender = true →
      s.paused = false → to_ ≠ 0 → amount ≠ 0 →
      s.supply_cap_enabled = true →
      s.total_supply + amount < U256_MOD →
      s.total_supply + amount > s.supply_cap →
      mint_with_checks sender to_ amount s =
        .err (.SupplyCapExceeded s.total_supply s.supply_cap) s) ∧
    (∀ (s : State) (sender to_ : Address) (amount : Nat),
      s.roles (bytes32_from_u32 MINTER_ROLE) sender = true →
      s.paused = false → to_ ≠ 0 → amount ≠ 0 →
      s.supply_cap_enabled = true →
      s.supply_cap < U256_MOD →
      s.total_supply + amount = s.supply_cap →
      s.balances to_ + amount < U256_MOD →
      mint_with_checks sender to_ amount s =
        .ok true { s.setBalance to_ (s.balances to_ + amount) with
          total_supply := s.total_supply + amount }) ∧
    (∀ (s : State) (sender to_ : Address) (amount : Nat),
      sender = s.owner →
      s.paused = false → to_ ≠ 0 → amount ≠ 0 →
      s.supply_cap_enabled = true →
      s.total_supply + amount > s.supply_cap →
      s.total_supply + amount < U256_MOD →
      s.balances to_ + amount < U256_MOD →
      mint sender to_ amount s =
        .ok true { s.setBalance to_ (s.balances to_ + amount) with
          total_supply := s.total_supply + amount }) := by
  refine ⟨?_, ?_, ?_⟩
  · intro s sender to_ amount hrole hp hto hamt hcap hfit hgt
    simp [mint_with_checks, hrole, hp, hto, hamt, internal_mint, hcap,
      checked_add, hfit, hgt]
  · intro s sender to_ amount hrole hp hto hamt hcap hclt heq hbal
    have hfit : s.total_supply + amount < U256_MOD := heq ▸ hclt
    have hngt : ¬ (s.total_supply + amount > s.supply_cap) := by omega
    simp [mint_with_checks, hrole, hp, hto, hamt, internal_mint, hcap,
      checked_add, hfit, hngt, internal_mint_core, hbal, State.setBalance]
  · intro s sender to_ amount howner hp hto hamt hcap hgt hfit hbal
    simp [mint, only_owner, howner, hp, hto, hamt, checked_add, hbal, hfit,
      State.setBalance]

/-- Witness for C1 amended: in `capState` (supply at the cap) minting 50 via
`mint_with_checks` fails with the cap error; in `capRoomState` (supply 60,
cap 100) minting exactly 40 succeeds reaching the cap; in `capState` the
legacy `mint` of 50 succeeds past the cap. -/
theorem supply_cap_enforcement_amended_witness :
    mint_with_checks 1 2 50 capState =
      .err (.SupplyCapExceeded 100 100) capState ∧
    mint_with_checks 1 2 40 capRoomState =
      .ok true { capRoomState.setBalance 2 (capRoomState.balances 2 + 40) with
        total_supply := 100 } ∧
    mint 1 2 50 capState =
      .ok true { capState.setBalance 2 (capState.balances 2 + 50) with
        total_supply := 150 } :=
  ⟨supply_cap_enforcement_amended.1 capState 1 2 50 (by decide) rfl (by decide)
      (by decide) rfl (by decide) (by decide),
   supply_cap_enforcement_amended.2.1 capRoomState 1 2 40 (by decide) rfl
      (by decide) (by decide) rfl (by decide) (by decide) (by decide),
   supply_cap_enforcement_amended.2.2 capState 1 2 50 rfl rfl (by decide)
      (by decide) rfl (by decide) (by decide) (by decide)⟩

/-- C2: `batch_transfer` is all-or-nothing at the call boundary: a length
mismatch fails with `BatchTransferLengthMismatch` touching no balance, and
any failing call — in particular one whose element `i` fails after earlier
elements already transferred — leaves the observable state exactly as
before the call, the in-body mutations of the earlier elements being
reverted by the host. -/
theorem batch_transfer_atomicity :
    (∀ (s : State) (sender : Address) (recipients : List Address) (amounts : List Nat),
      recipients.length ≠ amounts.length →
      call_batch_transfer sender recipients amounts s =
        .err .BatchTransferLengthMismatch s) ∧
    (∀ (s s' : State) (sender : Address) (recipients : List Address)
        (amounts : List Nat) (e : Error),
      call_batch_transfer sender recipients amounts s = .err e s' → s' = s) := by
  constructor
  · intro s sender recipients amounts h
    simp [call_batch_transfer, batch_transfer, revert_on_err, h]
  · intro s s' sender recipients amounts e h
    unfold call_batch_transfer revert_on_err at h
    cases hb : batch_transfer sender recipients amounts s with
    | ok v st => rw [hb] at h; simp at h
    | err e2 st => rw [hb] at h; injection h with h1 h2; exact h2.symm

/-- Witness for C2 in `batchState` (account 1 holds 50): mismatched lists
fail with the length error and an unchanged state, and a batch whose second
element exceeds the remaining balance — after its first element already
moved 10 — fails with `InsufficientBalance` and an unchanged state. -/
theorem batch_transfer_atomicity_witness :
    call_batch_transfer 1 [2, 3, 4] [10, 20] batchState =
      .err .BatchTransferLengthMismatch batchState ∧
    call_batch_transfer 1 [2, 3] [10, 1000] batchState =
      .err (.InsufficientBalance 40 1000) batchState ∧
    batchState = batchState := by
  have h : call_batch_transfer 1 [2, 3] [10, 1000] batchState =
      .err (.InsufficientBalance 40 1000) batchState := rfl
  exact ⟨batch_transfer_atomicity.1 batchState 1 [2, 3, 4] [10, 20] (by decide),
    h, batch_transfer_atomicity.2 batchState batchState 1 [2, 3] [10, 1000]
      (.InsufficientBalance 40 1000) h⟩

/-- C3: in `transfer_from` and `burn_from` the allowance decrement and the
balance debit form one atomic step: any failing call leaves the observable
state (the stored allowance included) exactly as before — in particular an
`InsufficientBalance` failure, which in the body occurs after the allowance
was already decremented, reverts that decrement — and a succeeding
`transfer_from` is exactly the debit (`internal_transfer`) applied to the
allowance-decremented state, while a succeeding `burn_from` decrements the
allowance, debits the balance and lowers the supply in the same step. -/
theorem allowance_debit_atomicity :
    (∀ (s s' : State) (sender from_ to_ : Address) (amount : Nat) (e : Error),
      call_transfer_from sender from_ to_ amount s = .err e s' → s' = s) ∧
    (∀ (s s' : State) (sender from_ : Address) (amount : Nat) (e : Error),
      call_burn_from sender from_ amount s = .err e s' → s' = s) ∧
    (∀ (s : State) (sender from_ to_ : Address) (amount : Nat),
      s.paused = false → to_ ≠ 0 → amount ≠ 0 →
      amount ≤ s.allowances from_ sender →
      transfer_from sender from_ to_ amount s =
        (match internal_transfer from_ to_ amount
            (s.setAllowance from_ sender (s.allowances from_ sender - amount)) with
         | .ok _ s2 => .ok true s2
         | .err e s2 => .err e s2)) ∧
    (∀ (s : State) (sender from_ to_ : Address) (amount : Nat),
      s.paused = false → to_ ≠ 0 → amount ≠ 0 →
      amount ≤ s.allowances from_ sender →
      s.balances from_ < amount →
      call_transfer_from sender from_ to_ amount s =
        .err (.InsufficientBalance (s.balances from_) amount) s) ∧
    (∀ (s : State) (sender from_ : Address) (amount : Nat),
      s.paused = false → from_ ≠ 0 → amount ≠ 0 →
      amount ≤ s.allowances from_ sender →
      amount ≤ s.balances from_ →
      amount ≤ s.total_supply →
      call_burn_from sender from_ amount s =
        .ok true { (s.setAllowance from_ sender
            (s.allowances from_ sender - amount)).setBalance from_
            (s.balances from_ - amount) with
          total_supply := s.total_supply - amount }) ∧
    (∀ (s : State) (sender from_ : Address) (amount : Nat),
      s.paused = false → from_ ≠ 0 → amount ≠ 0 →
      amount ≤ s.allowances from_ sender →
      s.balances from_ < amount →
      call_burn_from sender from_ amount s =
        .err (.InsufficientBalance (s.balances from_) amount) s) := by
  refine ⟨?_, ?_, ?_, ?_, ?_, ?_⟩
  · intro s s' sender from_ to_ amount e h
    unfold call_transfer_from revert_on_err at h
    cases hb : transfer_from sender from_ to_ amount s with
    | ok v st => rw [hb] at h; simp at h
    | err e2 st => rw [hb] at h; injection h with h1 h2; exact h2.symm
  · intro s s' sender from_ amount e h
    unfold call_burn_from revert_on_err at h
    cases hb : burn_from sender from_ amount s with
    | ok v st => rw [hb] at h; simp at h
    | err e2 st => rw [hb] at h; injection h with h1 h2; exact h2.symm
  · intro s sender from_ to_ amount hp hto hamt hallow
    simp [transfer_from, hp, hto, hamt, Nat.not_lt.mpr hallow, checked_sub, hallow]
  · intro s sender from_ to_ amount hp hto hamt hallow hbal
    simp [call_transfer_from, transfer_from, hp, hto, hamt,
      Nat.not_lt.mpr hallow, checked_sub, hallow, internal_transfer,
      State.setAllowance, hbal, revert_on_err]
  · intro s sender from_ amount hp hfr hamt hallow hbal hsup
    simp [call_burn_from, burn_from, hp, hfr, hamt, Nat.not_lt.mpr hallow,
      checked_sub, hallow, State.setAllowance, Nat.not_lt.mpr hbal, hbal, hsup,
      revert_on_err, State.setBalance]
  · intro s sender from_ amount hp hfr hamt hallow hbal
    simp [call_burn_from, burn_from, hp, hfr, hamt, Nat.not_lt.mpr hallow,
      checked_sub, hallow, State.setAllowance, hbal, revert_on_err]

/-- Witness for C3 in `allowState` (balance 10, allowance 100 from 1 to 2):
a `transfer_from` and a `burn_from` of 60 both fail with
`InsufficientBalance{10, 60}` and leave the state — allowance included —
unchanged; a `burn_from` of 7 succeeds, decrementing allowance, balance and
supply in one step; and the successful path decomposes as the debit applied
to the allowance-decremented state. -/
theorem allowance_debit_atomicity_witness :
    call_transfer_from 2 1 3 60 allowState =
      .err (.InsufficientBalance 10 60) allowState ∧
    allowState = allowState ∧
    transfer_from 2 1 3 7 allowState =
      (match internal_transfer 1 3 7
          (allowState.setAllowance 1 2 (allowState.allowances 1 2 - 7)) with
       | .ok _ s2 => .ok true s2
       | .err e s2 => .err e s2) ∧
    call_burn_from 2 1 7 allowState =
      .ok true { (allowState.setAllowance 1 2
          (allowState.allowances 1 2 - 7)).setBalance 1
          (allowState.balances 1 - 7) with
        total_supply := allowState.total_supply - 7 } ∧
    call_burn_from 2 1 60 allowState =
      .err (.InsufficientBalance 10 60) allowState :=
  ⟨allowance_debit_atomicity.2.2.2.1 allowState 2 1 3 60 rfl (by decide)
      (by decide) (by decide) (by decide),
   allowance_debit_atomicity.1 allowState allowState 2 1 3 60
      (.InsufficientBalance 10 60)
      (allowance_debit_atomicity.2.2.2.1 allowState 2 1 3 60 rfl (by decide)
        (by decide) (by decide) (by decide)),
   allowance_debit_atomicity.2.2.1 allowState 2 1 3 7 rfl (by decide)
      (by decide) (by decide),
   allowance_debit_atomicity.2.2.2.2.1 allowState 2 1 7 rfl (by decide)
      (by decide) (by decide) (by decide) (by decide),
   allowance_debit_atomicity.2.2.2.2.2 allowState 2 1 60 rfl (by decide)
      (by decide) (by decide) (by decide)⟩

/-- C5 counterexample: the claim is false for the plain `transfer` entry
point.  In `blkState` the blacklist is enabled and the sender (account 1) is
blacklisted, yet the plain `transfer` succeeds and moves 50 tokens: only the
`*_with_checks` variants consult the blacklist. -/
theorem plain_transfer_ignores_blacklist_cex :
    blkState.blacklist_enabled = true ∧
    blkState.blacklisted 1 = true ∧
    (transfer 1 2 50 blkState).isOk = true ∧
    (transfer 1 2 50 blkState).stateOf.balances 2 = 50 := by
  refine ⟨rfl, rfl, rfl, rfl⟩

/-- C5 amended: with the blacklist enabled, a blacklisted endpoint makes
`transfer_with_checks` and `transfer_from_with_checks` fail with
`AddressBlacklisted` naming that endpoint (the sender checked first) and
changes no observable balance; the plain `transfer` and `transfer_from`
entry points perform no blacklist check and succeed regardless. -/
theorem blacklist_enforcement_amended :
    (∀ (s : State) (sender to_ : Address) (amount : Nat),
      s.paused = false → to_ ≠ 0 → amount ≠ 0 →
      s.blacklist_enabled = true → s.blacklisted sender = true →
      transfer_with_checks sender to_ amount s =
        .err (.AddressBlacklisted sender) s) ∧
    (∀ (s : State) (sender to_ : Address) (amount : Nat),
      s.paused = false → to_ ≠ 0 → amount ≠ 0 →
      s.blacklist_enabled = true → s.blacklisted sender = false →
      s.blacklisted to_ = true →
      transfer_with_checks sender to_ amount s =
        .err (.AddressBlacklisted to_) s) ∧
    (∀ (s : State) (sender from_ to_ : Address) (amount : Nat),
      s.paused = false → to_ ≠ 0 → amount ≠ 0 →
      amount ≤ s.allowances from_ sender →
      s.blacklist_enabled = true → s.blacklisted from_ = true →
      call_transfer_from_with_checks sender from_ to_ amount s =
        .err (.AddressBlacklisted from_) s) ∧
    (∀ (s : State) (sender from_ to_ : Address) (amount : Nat),
      s.paused = false → to_ ≠ 0 → amount ≠ 0 →
      amount ≤ s.allowances from_ sender →
      s.blacklist_enabled = true → s.blacklisted from_ = false →
      s.blacklisted to_ = true →
      call_transfer_from_with_checks sender from_ to_ amount s =
        .err (.AddressBlacklisted to_) s) ∧
    (∀ (s : State) (sender to_ : Address) (amount : Nat),
      s.paused = false → to_ ≠ 0 → amount ≠ 0 →
      amount ≤ s.balances sender → s.balances to_ + amount < U256_MOD →
      s.blacklist_enabled = true → s.blacklisted sender = true →
      (transfer sender to_ amount s).isOk = true) ∧
    (∀ (s : State) (sender from_ to_ : Address) (amount : Nat),
      s.paused = false → to_ ≠ 0 → amount ≠ 0 →
      amount ≤ s.allowances from_ sender →
      amount ≤ s.balances from_ → s.balances to_ + amount < U256_MOD →
      s.blacklist_enabled = true → s.blacklisted from_ = true →
      (transfer_from sender from_ to_ amount s).isOk = true) := by
  refine ⟨?_, ?_, ?_, ?_, ?_, ?_⟩
  · intro s sender to_ amount hp hto hamt hbe hbs
    simp [transfer_with_checks, hp, hto, hamt, internal_transfer_with_checks,
      hbe, hbs]
  · intro s sender to_ amount hp hto hamt hbe hbs hbt
    simp [transfer_with_checks, hp, hto, hamt, internal_transfer_with_checks,
      hbe, hbs, hbt]
  · intro s sender from_ to_ amount hp hto hamt hallow hbe hbf
    simp [call_transfer_from_with_checks, transfer_from_with_checks, hp, hto,
      hamt, Nat.not_lt.mpr hallow, checked_sub, hallow,
      internal_transfer_with_checks, State.setAllowance, hbe, hbf, revert_on_err]
  · intro s sender from_ to_ amount hp hto hamt hallow hbe hbf hbt
    simp [call_transfer_from_with_checks, transfer_from_with_checks, hp, hto,
      hamt, Nat.not_lt.mpr hallow, checked_sub, hallow,
      internal_transfer_with_checks, State.setAllowance, hbe, hbf, hbt,
      revert_on_err]
  · intro s sender to_ amount hp hto hamt hbal hov hbe hbs
    simp [transfer, hp, hto, hamt, internal_transfer, Nat.not_lt.mpr hbal,
      checked_sub, hbal, checked_add, State.setBalance, hov, Res.isOk]
  · intro s sender from_ to_ amount hp hto hamt hallow hbal hov hbe hbf
    simp [transfer_from, hp, hto, hamt, Nat.not_lt.mpr hallow, checked_sub,
      hallow, internal_transfer, State.setAllowance, Nat.not_lt.mpr hbal,
      hbal, checked_add, State.setBalance, hov, Res.isOk]

/-- Witness for C5 amended in `blkState` (blacklist on, account 1
blacklisted, spender 9 approved by 1 and 2): both `*_with_checks` variants
reject either blacklisted endpoint with `AddressBlacklisted 1` and an
unchanged state, while the plain `transfer` and `transfer_from` succeed
moving tokens from the blacklisted account 1. -/
theorem blacklist_enforcement_amended_witness :
    transfer_with_checks 1 2 5 blkState = .err (.AddressBlacklisted 1) blkState ∧
    transfer_with_checks 2 1 5 blkState = .err (.AddressBlacklisted 1) blkState ∧
    call_transfer_from_with_checks 9 1 3 5 blkState =
      .err (.AddressBlacklisted 1) blkState ∧
    call_transfer_from_with_checks 9 2 1 5 blkState =
      .err (.AddressBlacklisted 1) blkState ∧
    (transfer 1 2 50 blkState).isOk = true ∧
    (transfer_from 9 1 3 20 blkState).isOk = true :=
  ⟨blacklist_enforcement_amended.1 blkState 1 2 5 rfl (by decide) (by decide)
      rfl rfl,
   blacklist_enforcement_amended.2.1 blkState 2 1 5 rfl (by decide) (by decide)
      rfl rfl rfl,
   blacklist_enforcement_amended.2.2.1 blkState 9 1 3 5 rfl (by decide)
      (by decide) (by decide) rfl rfl,
   blacklist_enforcement_amended.2.2.2.1 blkState 9 2 1 5 rfl (by decide)
      (by decide) (by decide) rfl rfl rfl,
   blacklist_enforcement_amended.2.2.2.2.1 blkState 1 2 50 rfl (by decide)
      (by decide) (by decide) (by decide) rfl rfl,
   blacklist_enforcement_amended.2.2.2.2.2 blkState 9 1 3 20 rfl (by decide)
      (by decide) (by decide) (by decide) (by decide) rfl rfl⟩

/-- C6 is violated by the code: `internal_transfer` reads the recipient's
balance before writing the debited sender balance and writes the recipient
last, so the self-transfer `transfer(1, 1, 50)` from a state where account 1
holds the whole supply of 100 succeeds and leaves account 1 with 150 while
`total_supply` stays 100 — the sum of balances no longer equals the total
supply after a plain transfer. -/
theorem self_transfer_breaks_sum_invariant :
    sum_inv selfState ∧
    (call_transfer 1 1 50 selfState).isOk = true ∧
    selfStateAfter.balances 1 = 150 ∧
    selfStateAfter.total_supply = 100 ∧
    ¬ sum_inv selfStateAfter := by
  refine ⟨⟨{1}, ?_, ?_⟩, rfl, rfl, rfl, ?_⟩
  · intro a ha
    have hne : a ≠ 1 := by simpa using ha
    simp [selfState, hne]
  · simp [selfState]
  · rintro ⟨accts, hsupp, hsum⟩
    have hb1 : selfStateAfter.balances 1 = 150 := rfl
    have ht : selfStateAfter.total_supply = 100 := rfl
    have h1 : (1 : Address) ∈ accts := by
      by_contra hn
      rw [hsupp 1 hn] at hb1
      exact absurd hb1 (by decide)
    have hle : selfStateAfter.balances 1 ≤ ∑ a ∈ accts, selfStateAfter.balances a :=
      Finset.single_le_sum (fun i _ => Nat.zero_le _) h1
    rw [hsum, hb1, ht] at hle
    omega

/-- C4 is violated by the code: `balance_of_at` / `total_supply_at` return
the live values, not the snapshot-time ones (the source's own comment says
"For simplicity, return current balance").  In `snapState`, snapshot 1 was
finalized while account 1 held 100; after a later transfer of 50 to account
2, `balance_of_at(1, 1)` returns the live 50 — not the 100 the account held
at the snapshot instant. -/
theorem snapshot_query_returns_live_value :
    snapState.balances 1 = 100 ∧
    snapState.next_snapshot_id = 2 ∧
    (call_transfer 1 2 50 snapState).isOk = true ∧
    snapStateAfter.balances 1 = 50 ∧
    balance_of_at 1 1 snapStateAfter = .ok 50 snapStateAfter ∧
    total_supply_at 1 snapStateAfter = .ok 100 snapStateAfter := by
  refine ⟨rfl, rfl, rfl, rfl, rfl, rfl⟩

end ArbitrumERC20
